import Mathlib

/-!
Verification development for the resumable parallel batch-processing engine
of `pdf_scanner_enterprise.py`.

The shallow embedding below translates the engine's discrete behaviour:

* `ResultRecord` — one row of extracted data (`csv_data` dict entries).
* `Outcome` — the result of one worker invocation: `success pages records`
  mirrors `(True, pages, out_dir, csv_data)`, `failure` mirrors
  `(False, 0, out_dir, [])`, and `crash` models `future.result()` raising,
  which the coordinator handles in its `except` branch.
* `load_progress`, `save_csv_data` — direct translations.
* `progressJson` — the byte string `json.dump({completed, failed, timestamp},
  f, indent=2)` produces (timestamp passed as its already-rendered text).
* `save_progress_ops` / `diskAfter` — the file-system steps `save_progress`
  performs (`open(path, "w")` truncates, then the serialized text is written)
  and their effect on the on-disk content, including interrupted prefixes.
* `runLoop` / `runCore` / `process_pdfs_enterprise` — the coordinator loop of
  `process_pdfs_enterprise`, with outcome arrival determinized to submission
  order (the claims under study are insensitive to arrival order).
-/

namespace PdfScanner

/-- One extracted row, as built in `process_single_pdf` (`csv_data.append`). -/
structure ResultRecord where
  filename : String
  case_number : String
  name : String
  address : String
  source_file : String
  page_number : Nat
deriving DecidableEq, Repr

/-- The observable result of one worker invocation for one path.
`success` carries the page count and extracted records; `failure` is the
`success == False` return; `crash` models `future.result()` raising, which is
handled by the coordinator's `except` branch. -/
inductive Outcome where
  | success (pages : Nat) (records : List ResultRecord)
  | failure
  | crash
deriving DecidableEq, Repr

/-- A persisted progress snapshot: the `completed` and `failed` lists. -/
structure Checkpoint where
  completed : List String
  failed : List String
deriving DecidableEq, Repr

/-- The checkpoint file as `load_progress` sees it: absent, present but not
valid JSON, or valid with parsed `completed`/`failed` lists. -/
inductive FileContent where
  | absent
  | malformed
  | valid (c : Checkpoint)
deriving DecidableEq, Repr

/-- Errors that escape the engine: `corruptState` is the `json.JSONDecodeError`
propagating out of `load_progress`; `zeroDivision` is the `ZeroDivisionError`
raised by the final report's `duration/len(completed_files + failed_files)`. -/
inductive RunError where
  | corruptState
  | zeroDivision
deriving DecidableEq, Repr

/-- Translation of `load_progress`: a missing file yields `([], [])`; a file
that fails to parse raises (modelled as `Except.error`); a valid file yields
its two lists. -/
def load_progress : FileContent → Except RunError (List String × List String)
  | FileContent.absent => Except.ok ([], [])
  | FileContent.malformed => Except.error RunError.corruptState
  | FileContent.valid c => Except.ok (c.completed, c.failed)

/-- The fixed CSV schema declared in `save_csv_data`. -/
def fieldnames : List String :=
  ["filename", "case_number", "name", "address", "source_file", "page_number"]

/-- One CSV row for a record, in `fieldnames` order (what `csv.DictWriter`
emits for the dict built in `process_single_pdf`). -/
def csvRow (r : ResultRecord) : List String :=
  [r.filename, r.case_number, r.name, r.address, r.source_file,
    toString r.page_number]

/-- An output dataset file: header row plus data rows. -/
structure CsvFile where
  header : List String
  rows : List (List String)
deriving DecidableEq, Repr

/-- Translation of `save_csv_data`: `if not all_csv_data: return` (no file);
otherwise a file with the fixed header and one row per record. -/
def save_csv_data (all_csv_data : List ResultRecord) : Option CsvFile :=
  if all_csv_data.isEmpty then none
  else some ⟨fieldnames, all_csv_data.map csvRow⟩

/-- A JSON string literal (ids are modelled as needing no escaping). -/
def quoteStr (s : String) : String := "\"" ++ s ++ "\""

/-- Rendering of a list of strings as `json.dump` with `indent=2` renders a
list sitting at depth 1 of the progress object: `[]` when empty, otherwise
elements on their own lines at indent 4 with the closing bracket at indent 2. -/
def jsonList (xs : List String) : String :=
  if xs.isEmpty then "[]"
  else "[\n" ++ String.intercalate ",\n" (xs.map (fun x => "    " ++ quoteStr x))
    ++ "\n  ]"

/-- The exact byte string `save_progress` persists:
`json.dump({'completed': ..., 'failed': ..., 'timestamp': time.time()}, f,
indent=2)`; `ts` is the timestamp's rendered text. -/
def progressJson (completed failed : List String) (ts : String) : String :=
  "\x7b\n  \"completed\": " ++ jsonList completed ++ ",\n  \"failed\": "
    ++ jsonList failed ++ ",\n  \"timestamp\": " ++ ts ++ "\n\x7d"

/-- A file-system operation performed by `save_progress`. -/
inductive FsOp where
  | truncate
  | writeAll (s : String)
deriving DecidableEq, Repr

/-- The file operations of `save_progress`: `open(progress_file, "w")`
truncates the file in place, then `json.dump` writes the serialization. -/
def save_progress_ops (completed failed : List String) (ts : String) :
    List FsOp :=
  [FsOp.truncate, FsOp.writeAll (progressJson completed failed ts)]

/-- On-disk content after executing a prefix of file operations starting from
`initial` content; an interrupted save is a proper prefix of the op list. -/
def diskAfter (initial : String) : List FsOp → String
  | [] => initial
  | FsOp.truncate :: rest => diskAfter "" rest
  | FsOp.writeAll s :: rest => diskAfter s rest

/-- The resume filter: `[f for f in pdf_paths if f not in completed_files and
f not in failed_files]`. -/
def remaining_files (completed failed paths : List String) : List String :=
  paths.filter (fun f => !(completed.contains f) && !(failed.contains f))

/-- In-memory coordinator state while draining the pool: the two outcome
lists, accumulated CSV records, page counter, and the cadence saves performed
so far, each tagged with the 1-based index of the outcome after which it
happened. -/
structure LoopState where
  completed : List String
  failed : List String
  csv : List ResultRecord
  totalPages : Nat
  saves : List (Nat × Checkpoint)
deriving Repr

/-- The `if len(completed_files + failed_files) % 10 == 0: save_progress(...)`
cadence check, run after an outcome handled in the `try` branch. -/
def cadenceCheck (idx : Nat) (s : LoopState) : LoopState :=
  if (s.completed.length + s.failed.length) % 10 == 0 then
    { s with saves := s.saves ++ [(idx, ⟨s.completed, s.failed⟩)] }
  else s

/-- Handling of one arrived outcome: success appends to `completed`, adds
pages, extends the CSV data, and runs the cadence check; failure appends to
`failed` and runs the cadence check; a crashed future appends to `failed` in
the `except` branch, which has no cadence check. -/
def applyOutcome (proc : String → Outcome) (idx : Nat) (s : LoopState)
    (p : String) : LoopState :=
  match proc p with
  | Outcome.success pages records =>
      cadenceCheck idx { s with
        completed := s.completed ++ [p]
        csv := s.csv ++ records
        totalPages := s.totalPages + pages }
  | Outcome.failure => cadenceCheck idx { s with failed := s.failed ++ [p] }
  | Outcome.crash => { s with failed := s.failed ++ [p] }

/-- The `for future in as_completed(...)` loop, outcome `idx` counting from 1. -/
def runLoop (proc : String → Outcome) : Nat → LoopState → List String →
    LoopState
  | _, s, [] => s
  | idx, s, p :: ps => runLoop proc (idx + 1) (applyOutcome proc idx s p) ps

/-- Everything observable about one completed call of the engine: the items
actually submitted to the pool, final lists, CSV records and optional output
file, cadence saves, the unconditional final save, and the reported counts
(`Except.error zeroDivision` when the final report divides by the number of
terminal items and that number is zero). -/
structure RunTrace where
  dispatched : List String
  completed : List String
  failed : List String
  csvRecords : List ResultRecord
  totalPages : Nat
  loopSaves : List (Nat × Checkpoint)
  csvFile : Option CsvFile
  finalSave : Checkpoint
  report : Except RunError (Nat × Nat)
deriving Repr

/-- The body of `process_pdfs_enterprise` after resume handling: drain the
pool from initial lists `completed0`/`failed0`, write the CSV data, do the
final progress save, and compute the report, which divides by
`len(completed_files + failed_files)` and so raises when that length is 0. -/
def runCore (proc : String → Outcome)
    (completed0 failed0 dispatched : List String) : RunTrace :=
  let final := runLoop proc 1 ⟨completed0, failed0, [], 0, []⟩ dispatched
  { dispatched := dispatched
    completed := final.completed
    failed := final.failed
    csvRecords := final.csv
    totalPages := final.totalPages
    loopSaves := final.saves
    csvFile := save_csv_data final.csv
    finalSave := ⟨final.completed, final.failed⟩
    report :=
      if final.completed.length + final.failed.length = 0 then
        Except.error RunError.zeroDivision
      else Except.ok (final.completed.length, final.failed.length) }

/-- Translation of `process_pdfs_enterprise`: when `resume` is set, load the
prior progress (propagating a parse failure) and dispatch only the paths not
already terminal; otherwise dispatch every path with empty initial lists. -/
def process_pdfs_enterprise (proc : String → Outcome) (paths : List String)
    (resume : Bool) (checkpoint : FileContent) : Except RunError RunTrace :=
  if resume then
    match load_progress checkpoint with
    | Except.error e => Except.error e
    | Except.ok (c0, f0) =>
        Except.ok (runCore proc c0 f0 (remaining_files c0 f0 paths))
  else
    Except.ok (runCore proc [] [] paths)

/-- Whether an outcome took the success branch. -/
def isSuccess : Outcome → Bool
  | Outcome.success _ _ => true
  | _ => false

/-- Whether an outcome is a crashed future (handled in the `except` branch). -/
def isCrash : Outcome → Bool
  | Outcome.crash => true
  | _ => false

/-- Records contributed by an outcome (only successes contribute any). -/
def outcomeRecords : Outcome → List ResultRecord
  | Outcome.success _ records => records
  | _ => []

/-- Specification of the outcome indices at which the loop persists progress:
`tot` terminal ids exist before the outcome at index `idx`; a save happens
after an outcome iff it was not a crashed future and the new total is a
multiple of 10. -/
def expected_save_points (proc : String → Outcome) :
    Nat → Nat → List String → List Nat
  | _, _, [] => []
  | tot, idx, p :: ps =>
      (if !(isCrash (proc p)) && ((tot + 1) % 10 == 0) then [idx] else [])
        ++ expected_save_points proc (tot + 1) (idx + 1) ps

/-- Handling of one arrival, given as the pair of the submitted path and the
outcome that particular worker invocation returned. Each occurrence of a path
in the input is submitted as its own invocation (line 221 builds one future
per occurrence), and the outcome depends on the world at invocation time, so
two occurrences of the same path may carry different outcomes. The branch
structure is that of `applyOutcome`. -/
def applyArrival (idx : Nat) (s : LoopState) (a : String × Outcome) :
    LoopState :=
  match a.2 with
  | Outcome.success pages records =>
      cadenceCheck idx { s with
        completed := s.completed ++ [a.1]
        csv := s.csv ++ records
        totalPages := s.totalPages + pages }
  | Outcome.failure => cadenceCheck idx { s with failed := s.failed ++ [a.1] }
  | Outcome.crash => { s with failed := s.failed ++ [a.1] }

/-- The drain loop over an explicit arrival sequence, one entry per worker
invocation; `runLoop proc` is the special case in which every occurrence of a
path receives the same outcome `proc p`. -/
def runLoopArrivals : Nat → LoopState → List (String × Outcome) → LoopState
  | _, s, [] => s
  | idx, s, a :: as => runLoopArrivals (idx + 1) (applyArrival idx s a) as

/-- The run body over an explicit arrival sequence: as `runCore`, but with
each invocation's outcome supplied independently, so duplicate occurrences of
a path need not behave alike. -/
def runCoreArrivals (completed0 failed0 : List String)
    (arrivals : List (String × Outcome)) : RunTrace :=
  let final := runLoopArrivals 1 ⟨completed0, failed0, [], 0, []⟩ arrivals
  { dispatched := arrivals.map Prod.fst
    completed := final.completed
    failed := final.failed
    csvRecords := final.csv
    totalPages := final.totalPages
    loopSaves := final.saves
    csvFile := save_csv_data final.csv
    finalSave := ⟨final.completed, final.failed⟩
    report :=
      if final.completed.length + final.failed.length = 0 then
        Except.error RunError.zeroDivision
      else Except.ok (final.completed.length, final.failed.length) }

/-- The cadence check never changes the `completed` list. -/
theorem cadenceCheck_completed (idx : Nat) (s : LoopState) :
    (cadenceCheck idx s).completed = s.completed := by
  unfold cadenceCheck; split <;> rfl

/-- The cadence check never changes the `failed` list. -/
theorem cadenceCheck_failed (idx : Nat) (s : LoopState) :
    (cadenceCheck idx s).failed = s.failed := by
  unfold cadenceCheck; split <;> rfl

/-- The cadence check never changes the accumulated CSV data. -/
theorem cadenceCheck_csv (idx : Nat) (s : LoopState) :
    (cadenceCheck idx s).csv = s.csv := by
  unfold cadenceCheck; split <;> rfl

/-- Handling one outcome appends the path to `completed` exactly when the
outcome is a success. -/
theorem applyOutcome_completed (proc : String → Outcome) (idx : Nat)
    (s : LoopState) (p : String) :
    (applyOutcome proc idx s p).completed
      = s.completed ++ (if isSuccess (proc p) then [p] else []) := by
  unfold applyOutcome
  cases h : proc p <;> simp [cadenceCheck_completed, isSuccess]

/-- Handling one outcome appends the path to `failed` exactly when the outcome
is not a success (worker-reported failure or crashed future). -/
theorem applyOutcome_failed (proc : String → Outcome) (idx : Nat)
    (s : LoopState) (p : String) :
    (applyOutcome proc idx s p).failed
      = s.failed ++ (if isSuccess (proc p) then [] else [p]) := by
  unfold applyOutcome
  cases h : proc p <;> simp [cadenceCheck_failed, isSuccess]

/-- Handling one outcome appends exactly the outcome's records to the CSV
data. -/
theorem applyOutcome_csv (proc : String → Outcome) (idx : Nat)
    (s : LoopState) (p : String) :
    (applyOutcome proc idx s p).csv = s.csv ++ outcomeRecords (proc p) := by
  unfold applyOutcome
  cases h : proc p <;> simp [cadenceCheck_csv, outcomeRecords]

/-- After the drain loop, `completed` is the initial list followed by the
dispatched paths whose outcome succeeded, in dispatch order. -/
theorem runLoop_completed (proc : String → Outcome) :
    ∀ (ps : List String) (idx : Nat) (s : LoopState),
      (runLoop proc idx s ps).completed
        = s.completed ++ ps.filter (fun p => isSuccess (proc p)) := by
  intro ps
  induction ps with
  | nil => intro idx s; simp [runLoop]
  | cons p ps ih =>
      intro idx s
      simp only [runLoop, ih, applyOutcome_completed, List.filter_cons]
      cases h : isSuccess (proc p) <;> simp [h]

/-- After the drain loop, `failed` is the initial list followed by the
dispatched paths whose outcome did not succeed, in dispatch order. -/
theorem runLoop_failed (proc : String → Outcome) :
    ∀ (ps : List String) (idx : Nat) (s : LoopState),
      (runLoop proc idx s ps).failed
        = s.failed ++ ps.filter (fun p => !(isSuccess (proc p))) := by
  intro ps
  induction ps with
  | nil => intro idx s; simp [runLoop]
  | cons p ps ih =>
      intro idx s
      simp only [runLoop, ih, applyOutcome_failed, List.filter_cons]
      cases h : isSuccess (proc p) <;> simp [h]

/-- After the drain loop, the CSV data is the initial data followed by the
records of each dispatched path's outcome, in dispatch order. -/
theorem runLoop_csv (proc : String → Outcome) :
    ∀ (ps : List String) (idx : Nat) (s : LoopState),
      (runLoop proc idx s ps).csv
        = s.csv ++ ps.flatMap (fun p => outcomeRecords (proc p)) := by
  intro ps
  induction ps with
  | nil => intro idx s; simp [runLoop]
  | cons p ps ih =>
      intro idx s
      simp only [runLoop, ih, applyOutcome_csv, List.flatMap_cons]
      simp [List.append_assoc]

/-- Every handled outcome grows the combined terminal count by exactly one. -/
theorem applyOutcome_sizes (proc : String → Outcome) (idx : Nat)
    (s : LoopState) (p : String) :
    (applyOutcome proc idx s p).completed.length
        + (applyOutcome proc idx s p).failed.length
      = s.completed.length + s.failed.length + 1 := by
  rw [applyOutcome_completed, applyOutcome_failed]
  cases h : isSuccess (proc p) <;> simp <;> omega

/-- Handling one outcome records a cadence save at index `idx` exactly when
the outcome did not come from a crashed future and the new combined terminal
count is a multiple of 10. -/
theorem applyOutcome_saves_fst (proc : String → Outcome) (idx : Nat)
    (s : LoopState) (p : String) :
    ((applyOutcome proc idx s p).saves).map Prod.fst
      = s.saves.map Prod.fst
        ++ (if !(isCrash (proc p))
              && ((s.completed.length + s.failed.length + 1) % 10 == 0)
            then [idx] else []) := by
  cases h : proc p with
  | success pages records =>
      have hc : (s.completed ++ [p]).length + s.failed.length
          = s.completed.length + s.failed.length + 1 := by
        simp; omega
      simp only [applyOutcome, h, cadenceCheck, hc, isCrash, Bool.not_false,
        Bool.true_and]
      split <;> simp
  | failure =>
      have hc : s.completed.length + (s.failed ++ [p]).length
          = s.completed.length + s.failed.length + 1 := by
        simp; omega
      simp only [applyOutcome, h, cadenceCheck, hc, isCrash, Bool.not_false,
        Bool.true_and]
      split <;> simp
  | crash =>
      simp [applyOutcome, h, isCrash]

/-- The loop's cadence saves happen exactly at the outcome indices given by
`expected_save_points`: after non-crash outcomes whose combined terminal count
(initial state included) is a multiple of 10. -/
theorem runLoop_saves_fst (proc : String → Outcome) :
    ∀ (ps : List String) (idx : Nat) (s : LoopState),
      ((runLoop proc idx s ps).saves).map Prod.fst
        = s.saves.map Prod.fst
          ++ expected_save_points proc
              (s.completed.length + s.failed.length) idx ps := by
  intro ps
  induction ps with
  | nil => intro idx s; simp [runLoop, expected_save_points]
  | cons p ps ih =>
      intro idx s
      simp only [runLoop, expected_save_points]
      rw [ih, applyOutcome_saves_fst, applyOutcome_sizes, List.append_assoc]

/-- The engine dispatches exactly the list it was handed after resume
filtering. -/
theorem runCore_dispatched (proc : String → Outcome)
    (completed0 failed0 dispatched : List String) :
    (runCore proc completed0 failed0 dispatched).dispatched = dispatched := rfl

/-- Final `completed` list of a run: the initial list plus the dispatched
paths whose outcome succeeded. -/
theorem runCore_completed (proc : String → Outcome)
    (completed0 failed0 dispatched : List String) :
    (runCore proc completed0 failed0 dispatched).completed
      = completed0 ++ dispatched.filter (fun p => isSuccess (proc p)) := by
  show (runLoop proc 1 ⟨completed0, failed0, [], 0, []⟩ dispatched).completed = _
  rw [runLoop_completed]

/-- Final `failed` list of a run: the initial list plus the dispatched paths
whose outcome did not succeed. -/
theorem runCore_failed (proc : String → Outcome)
    (completed0 failed0 dispatched : List String) :
    (runCore proc completed0 failed0 dispatched).failed
      = failed0 ++ dispatched.filter (fun p => !(isSuccess (proc p))) := by
  show (runLoop proc 1 ⟨completed0, failed0, [], 0, []⟩ dispatched).failed = _
  rw [runLoop_failed]

/-- The accumulated CSV records of a run are exactly the records of the
dispatched paths' outcomes, in dispatch order. -/
theorem runCore_csvRecords (proc : String → Outcome)
    (completed0 failed0 dispatched : List String) :
    (runCore proc completed0 failed0 dispatched).csvRecords
      = dispatched.flatMap (fun p => outcomeRecords (proc p)) := by
  show (runLoop proc 1 ⟨completed0, failed0, [], 0, []⟩ dispatched).csv = _
  rw [runLoop_csv]
  rfl

/-- The output dataset of a run is `save_csv_data` of its accumulated
records. -/
theorem runCore_csvFile (proc : String → Outcome)
    (completed0 failed0 dispatched : List String) :
    (runCore proc completed0 failed0 dispatched).csvFile
      = save_csv_data
          ((runCore proc completed0 failed0 dispatched).csvRecords) := rfl

/-- The unconditional final save persists exactly the final lists. -/
theorem runCore_finalSave (proc : String → Outcome)
    (completed0 failed0 dispatched : List String) :
    (runCore proc completed0 failed0 dispatched).finalSave
      = ⟨(runCore proc completed0 failed0 dispatched).completed,
          (runCore proc completed0 failed0 dispatched).failed⟩ := rfl

/-- Cadence saves of a run happen exactly at the `expected_save_points`. -/
theorem runCore_saves_fst (proc : String → Outcome)
    (completed0 failed0 dispatched : List String) :
    ((runCore proc completed0 failed0 dispatched).loopSaves).map Prod.fst
      = expected_save_points proc (completed0.length + failed0.length) 1
          dispatched := by
  show ((runLoop proc 1 ⟨completed0, failed0, [], 0, []⟩ dispatched).saves).map
      Prod.fst = _
  rw [runLoop_saves_fst]
  rfl

/-- Membership in the resume filter's output. -/
theorem mem_remaining_files (completed failed paths : List String)
    (x : String) :
    x ∈ remaining_files completed failed paths
      ↔ x ∈ paths ∧ x ∉ completed ∧ x ∉ failed := by
  unfold remaining_files
  simp [List.mem_filter, and_assoc]

/-- Handling one outcome is handling the arrival that pairs the path with the
outcome the processor assigns it. -/
theorem applyOutcome_eq_applyArrival (proc : String → Outcome) (idx : Nat)
    (s : LoopState) (p : String) :
    applyOutcome proc idx s p = applyArrival idx s (p, proc p) := by
  cases h : proc p <;> simp [applyOutcome, applyArrival, h]

/-- The deterministic loop is the arrival loop run on the arrival sequence in
which every occurrence of a path gets the outcome `proc` assigns that path. -/
theorem runLoop_eq_runLoopArrivals (proc : String → Outcome) :
    ∀ (ps : List String) (idx : Nat) (s : LoopState),
      runLoop proc idx s ps
        = runLoopArrivals idx s (ps.map (fun p => (p, proc p))) := by
  intro ps
  induction ps with
  | nil => intro idx s; rfl
  | cons p ps ih =>
      intro idx s
      simp only [runLoop, runLoopArrivals, List.map_cons, ih,
        applyOutcome_eq_applyArrival]

/-- One arrival adds its path to the two terminal lists' combined occurrence
count for `x` exactly as often as the path equals `x`: once to exactly one of
the lists when it is `x`, never otherwise. -/
theorem applyArrival_count (x : String) (idx : Nat) (s : LoopState)
    (a : String × Outcome) :
    (applyArrival idx s a).completed.count x
        + (applyArrival idx s a).failed.count x
      = s.completed.count x + s.failed.count x + List.count x [a.1] := by
  rcases a with ⟨p, o⟩
  cases o <;>
    simp [applyArrival, cadenceCheck_completed, cadenceCheck_failed,
      List.count_append] <;>
    omega

/-- Across a whole arrival sequence, the combined number of occurrences of an
id in `completed` and `failed` grows by exactly the id's number of
occurrences among the arrived paths. -/
theorem runLoopArrivals_count (x : String) :
    ∀ (as : List (String × Outcome)) (idx : Nat) (s : LoopState),
      (runLoopArrivals idx s as).completed.count x
          + (runLoopArrivals idx s as).failed.count x
        = s.completed.count x + s.failed.count x
            + List.count x (as.map Prod.fst) := by
  intro as
  induction as with
  | nil => intro idx s; simp [runLoopArrivals]
  | cons a as ih =>
      intro idx s
      simp only [runLoopArrivals, List.map_cons]
      rw [ih, applyArrival_count]
      simp [List.count_cons]
      omega

/-- C1: for every input sequence, a fresh (`resume = false`) run of
`process_pdfs_enterprise` ends with `completed ∪ failed` equal to the full
de-duplicated set of submitted ids: a path is in one of the two final lists
iff it was submitted, so every submitted item reaches a terminal state and
none is dropped. -/
theorem c1_every_item_reaches_terminal_state (proc : String → Outcome)
    (paths : List String) (checkpoint : FileContent) :
    process_pdfs_enterprise proc paths false checkpoint
        = Except.ok (runCore proc [] [] paths)
      ∧ ∀ x : String,
          (x ∈ (runCore proc [] [] paths).completed
              ∨ x ∈ (runCore proc [] [] paths).failed)
            ↔ x ∈ paths := by
  refine ⟨rfl, fun x => ?_⟩
  rw [runCore_completed, runCore_failed]
  simp only [List.nil_append, List.mem_filter]
  constructor
  · rintro (⟨h, _⟩ | ⟨h, _⟩) <;> exact h
  · intro hx
    cases hs : isSuccess (proc x)
    · exact Or.inr ⟨hx, by simp [hs]⟩
    · exact Or.inl ⟨hx, rfl⟩

/-- C2: a resumed run loads the prior state and dispatches only the paths not
already terminal there, so the item processor is never re-invoked for an id in
the prior `completed` or `failed` lists. -/
theorem c2_resume_never_reinvokes_terminal (proc : String → Outcome)
    (paths c0 f0 : List String) (x : String) :
    process_pdfs_enterprise proc paths true (FileContent.valid ⟨c0, f0⟩)
        = Except.ok (runCore proc c0 f0 (remaining_files c0 f0 paths))
      ∧ (x ∈ (runCore proc c0 f0 (remaining_files c0 f0 paths)).dispatched
          → x ∉ c0 ∧ x ∉ f0 ∧ x ∈ paths) := by
  refine ⟨rfl, fun hx => ?_⟩
  rw [runCore_dispatched, mem_remaining_files] at hx
  exact ⟨hx.2.1, hx.2.2, hx.1⟩

/-- C2 witness: resuming with prior completed `["a"]`, failed `["b"]` and
input `["a", "b", "c"]` dispatches `"c"`, which is terminal in neither prior
list. -/
theorem c2_resume_never_reinvokes_terminal_witness :
    process_pdfs_enterprise (fun _ => Outcome.failure) ["a", "b", "c"] true
        (FileContent.valid ⟨["a"], ["b"]⟩)
        = Except.ok (runCore (fun _ => Outcome.failure) ["a"] ["b"]
            (remaining_files ["a"] ["b"] ["a", "b", "c"]))
      ∧ ("c" ∉ (["a"] : List String) ∧ "c" ∉ (["b"] : List String)
          ∧ "c" ∈ (["a", "b", "c"] : List String)) :=
  ⟨(c2_resume_never_reinvokes_terminal (fun _ => Outcome.failure)
      ["a", "b", "c"] ["a"] ["b"] "c").1,
    (c2_resume_never_reinvokes_terminal (fun _ => Outcome.failure)
      ["a", "b", "c"] ["a"] ["b"] "c").2 (by decide)⟩

/-- C3 counterexample: the claim says an id appears in at most one of
`completed`/`failed` and is added to exactly one of them exactly once per
run, including for inputs with duplicate ids. But each occurrence of a path
is its own worker invocation, and the invocations are independent: when the
first invocation for `"a"` succeeds and the second fails (the file can
change on disk between them), the run appends `"a"` to `completed` and then
to `failed` — after the run the id is in both collections at once, added to
each of them rather than to exactly one. -/
theorem c3_counterexample :
    (runCoreArrivals [] []
          [("a", Outcome.success 1 []), ("a", Outcome.failure)]).completed
        = ["a"]
      ∧ (runCoreArrivals [] []
          [("a", Outcome.success 1 []), ("a", Outcome.failure)]).failed
        = ["a"]
      ∧ "a" ∈ (runCoreArrivals [] []
          [("a", Outcome.success 1 []), ("a", Outcome.failure)]).completed
      ∧ "a" ∈ (runCoreArrivals [] []
          [("a", Outcome.success 1 []), ("a", Outcome.failure)]).failed :=
  ⟨rfl, rfl, by decide, by decide⟩

/-- C3 amended: in a fresh run, each arrival — one worker invocation's
outcome for one occurrence of an id — adds the id to exactly one of
`completed`/`failed` exactly once, so the combined number of additions of an
id across the two lists equals the id's number of occurrences among the
submitted invocations. Only when the id occurs at most once in the input does
it follow that the id is added exactly once overall and appears in at most
one of the two lists; an id occurring twice can end up in both. Since every
prefix of an arrival sequence is itself an arrival sequence, this holds at
every point during a run. -/
theorem c3_one_terminal_list_per_occurrence
    (arrivals : List (String × Outcome)) (x : String) :
    (runCoreArrivals [] [] arrivals).completed.count x
          + (runCoreArrivals [] [] arrivals).failed.count x
        = List.count x (arrivals.map Prod.fst)
      ∧ (List.count x (arrivals.map Prod.fst) ≤ 1
          → (runCoreArrivals [] [] arrivals).completed.count x = 0
            ∨ (runCoreArrivals [] [] arrivals).failed.count x = 0) := by
  have h : (runCoreArrivals [] [] arrivals).completed.count x
        + (runCoreArrivals [] [] arrivals).failed.count x
      = List.count x (arrivals.map Prod.fst) := by
    show (runLoopArrivals 1 ⟨[], [], [], 0, []⟩ arrivals).completed.count x
        + (runLoopArrivals 1 ⟨[], [], [], 0, []⟩ arrivals).failed.count x = _
    rw [runLoopArrivals_count]
    simp
  exact ⟨h, fun hle => by omega⟩

/-- C3 witness: with two distinct paths, one succeeding and one failing,
`"a"` occurs once among the invocations, is added exactly once across the two
lists, and appears in only one of them. -/
theorem c3_one_terminal_list_per_occurrence_witness :
    (runCoreArrivals [] []
          [("a", Outcome.success 1 []), ("b", Outcome.failure)]).completed.count
            "a"
          + (runCoreArrivals [] []
              [("a", Outcome.success 1 []),
                ("b", Outcome.failure)]).failed.count "a"
        = List.count "a"
            (([("a", Outcome.success 1 []),
                ("b", Outcome.failure)]).map Prod.fst)
      ∧ ((runCoreArrivals [] []
            [("a", Outcome.success 1 []),
              ("b", Outcome.failure)]).completed.count "a" = 0
          ∨ (runCoreArrivals [] []
              [("a", Outcome.success 1 []),
                ("b", Outcome.failure)]).failed.count "a" = 0) :=
  ⟨(c3_one_terminal_list_per_occurrence
      [("a", Outcome.success 1 []), ("b", Outcome.failure)] "a").1,
    (c3_one_terminal_list_per_occurrence
      [("a", Outcome.success 1 []), ("b", Outcome.failure)] "a").2
      (by decide)⟩

/-- C4: the claim that an empty input sequence completes with
`succeeded = 0, failed = 0` and a success exit signal is the spec's intent,
but the code's final report divides by
`len(completed_files + failed_files)`, which is zero for an empty fresh run,
so the run dies with a `ZeroDivisionError` instead of returning. The run does
reach that point with empty terminal lists and without writing an output
dataset file. -/
theorem c4_empty_input_division_error :
    (process_pdfs_enterprise (fun _ => Outcome.failure) [] false
          FileContent.absent).map
        (fun tr => (tr.completed, tr.failed, tr.csvFile, tr.report))
      = Except.ok ([], [], none, Except.error RunError.zeroDivision) := rfl

/-- C5 counterexample: the claim says a failed save leaves the prior on-disk
checkpoint intact, but `save_progress` opens the file with mode `w`, which
truncates in place; interrupting after the truncation and before the write
leaves an empty file, which is neither the prior checkpoint nor the new
one. -/
theorem c5_counterexample :
    diskAfter (progressJson ["a"] [] "1")
        ((save_progress_ops ["a", "b"] [] "2").take 1) = ""
      ∧ progressJson ["a"] [] "1" ≠ "" :=
  ⟨rfl, by decide⟩

/-- C5 amended: `save_progress` fully overwrites the checkpoint in place —
a completed save leaves exactly the new serialization on disk — but it is not
atomic: it truncates the file before writing, so an interruption between the
two steps leaves an empty file and the previous checkpoint is destroyed. -/
theorem c5_full_overwrite_not_atomic (prior : String)
    (completed failed : List String) (ts : String) :
    diskAfter prior (save_progress_ops completed failed ts)
        = progressJson completed failed ts
      ∧ diskAfter prior ((save_progress_ops completed failed ts).take 1)
        = "" :=
  ⟨rfl, rfl⟩

/-- C6 counterexample: the claim says progress is persisted after every 10th
outcome counting outcomes of this run. Resuming with one prior completed id
and dispatching 10 items, the cadence condition
`len(completed_files + failed_files) % 10 == 0` counts the prior id too: the
run's only loop save happens after its 9th outcome (total 10), and no save
happens after its 10th outcome (total 11), though the claim requires one
there. -/
theorem c6_counterexample :
    (process_pdfs_enterprise (fun _ => Outcome.success 0 [])
          ["a", "b", "c", "d", "e", "f", "g", "h", "i", "j"] true
          (FileContent.valid ⟨["p0"], []⟩)).map
        (fun tr => (tr.dispatched.length, tr.loopSaves.map Prod.fst))
      = Except.ok (10, [9]) := rfl

/-- C6 amended: during the drain loop, progress is persisted after exactly
those outcomes that are handled in the `try` branch (not crashed futures) and
at which the combined size of `completed` and `failed` — prior resumed
entries included — is a multiple of 10; for a fresh run this is every 10th
outcome of the run. One further save of the final state always happens after
the pool drains. -/
theorem c6_checkpoint_cadence (proc : String → Outcome)
    (paths c0 f0 : List String) :
    ((runCore proc c0 f0 (remaining_files c0 f0 paths)).loopSaves).map
          Prod.fst
        = expected_save_points proc (c0.length + f0.length) 1
            (remaining_files c0 f0 paths)
      ∧ ((runCore proc [] [] paths).loopSaves).map Prod.fst
        = expected_save_points proc 0 1 paths
      ∧ (runCore proc c0 f0 (remaining_files c0 f0 paths)).finalSave
        = ⟨(runCore proc c0 f0 (remaining_files c0 f0 paths)).completed,
            (runCore proc c0 f0 (remaining_files c0 f0 paths)).failed⟩ :=
  ⟨runCore_saves_fst proc c0 f0 (remaining_files c0 f0 paths),
    runCore_saves_fst proc [] [] paths,
    runCore_finalSave proc c0 f0 (remaining_files c0 f0 paths)⟩

/-- C7: `load_progress` maps a missing checkpoint file to the empty state
rather than an error, a malformed file to a fatal corrupt-state error rather
than any state, and a valid file to its recorded lists. -/
theorem c7_load_progress_contract :
    load_progress FileContent.absent = Except.ok ([], [])
      ∧ load_progress FileContent.malformed
        = Except.error RunError.corruptState
      ∧ ∀ c : Checkpoint,
          load_progress (FileContent.valid c)
            = Except.ok (c.completed, c.failed) :=
  ⟨rfl, rfl, fun _ => rfl⟩

/-- C8: the records a fresh run ever adds are exactly those of its dispatched
items' outcomes; when none were added no output file is created, and
otherwise the output file has the fixed header and exactly one row per
accumulated record, in order. -/
theorem c8_csv_one_row_per_record (proc : String → Outcome)
    (paths : List String) :
    (runCore proc [] [] paths).csvRecords
        = paths.flatMap (fun p => outcomeRecords (proc p))
      ∧ ((runCore proc [] [] paths).csvRecords = []
          → (runCore proc [] [] paths).csvFile = none)
      ∧ ((runCore proc [] [] paths).csvRecords ≠ []
          → (runCore proc [] [] paths).csvFile
            = some ⟨fieldnames,
                ((runCore proc [] [] paths).csvRecords).map csvRow⟩) := by
  refine ⟨runCore_csvRecords proc [] [] paths, fun h => ?_, fun h => ?_⟩
  · rw [runCore_csvFile, h]
    rfl
  · rw [runCore_csvFile]
    unfold save_csv_data
    rw [if_neg (by simpa using h)]

/-- C8 witness: a run whose single item succeeds with one record produces the
one-row file, and a run whose single item fails produces no file. -/
theorem c8_csv_one_row_per_record_witness :
    (runCore
          (fun _ => Outcome.success 1 [⟨"f.pdf", "123", "N", "A", "s.pdf", 1⟩])
          [] [] ["a"]).csvFile
        = some ⟨fieldnames,
            ((runCore
                (fun _ =>
                  Outcome.success 1 [⟨"f.pdf", "123", "N", "A", "s.pdf", 1⟩])
                [] [] ["a"]).csvRecords).map csvRow⟩
      ∧ (runCore (fun _ => Outcome.failure) [] [] ["a"]).csvFile = none :=
  ⟨(c8_csv_one_row_per_record
      (fun _ => Outcome.success 1 [⟨"f.pdf", "123", "N", "A", "s.pdf", 1⟩])
      ["a"]).2.2 (by decide),
    (c8_csv_one_row_per_record (fun _ => Outcome.failure) ["a"]).2.1
      (by decide)⟩

/-- C9: the byte string `save_progress` persists for a given state is the
same on every save apart from the timestamp field: there is a fixed prefix
and suffix, determined by the state alone, around the rendered timestamp. -/
theorem c9_save_idempotent_mod_timestamp (completed failed : List String)
    (t1 t2 : String) :
    ∃ pre post : String,
      progressJson completed failed t1 = pre ++ t1 ++ post
        ∧ progressJson completed failed t2 = pre ++ t2 ++ post :=
  ⟨"\x7b\n  \"completed\": " ++ jsonList completed ++ ",\n  \"failed\": "
      ++ jsonList failed ++ ",\n  \"timestamp\": ", "\n\x7d", rfl, rfl⟩

/-- C10: in a resumed run the aggregator starts empty and accumulates exactly
the records of the outcomes of the items dispatched in this run, and no item
from the prior checkpoint's completed set is dispatched, so the serialized
output contains no record contributed by a previously-completed item. -/
theorem c10_resume_output_only_from_this_run (proc : String → Outcome)
    (paths c0 f0 : List String) (x : String) :
    process_pdfs_enterprise proc paths true (FileContent.valid ⟨c0, f0⟩)
        = Except.ok (runCore proc c0 f0 (remaining_files c0 f0 paths))
      ∧ (runCore proc c0 f0 (remaining_files c0 f0 paths)).csvRecords
        = ((runCore proc c0 f0
              (remaining_files c0 f0 paths)).dispatched).flatMap
            (fun p => outcomeRecords (proc p))
      ∧ (x ∈ c0
          → x ∉ (runCore proc c0 f0
              (remaining_files c0 f0 paths)).dispatched) := by
  refine ⟨rfl, ?_, fun hx hmem => ?_⟩
  · rw [runCore_csvRecords, runCore_dispatched]
  · rw [runCore_dispatched, mem_remaining_files] at hmem
    exact hmem.2.1 hx

/-- C10 witness: resuming with `"a"` already completed and input
`["a", "b"]`, the previously-completed `"a"` is not dispatched again. -/
theorem c10_resume_output_only_from_this_run_witness :
    process_pdfs_enterprise (fun _ => Outcome.success 1 []) ["a", "b"] true
        (FileContent.valid ⟨["a"], []⟩)
        = Except.ok (runCore (fun _ => Outcome.success 1 []) ["a"] []
            (remaining_files ["a"] [] ["a", "b"]))
      ∧ "a" ∉ (runCore (fun _ => Outcome.success 1 []) ["a"] []
          (remaining_files ["a"] [] ["a", "b"])).dispatched :=
  ⟨(c10_resume_output_only_from_this_run (fun _ => Outcome.success 1 [])
      ["a", "b"] ["a"] [] "a").1,
    (c10_resume_output_only_from_this_run (fun _ => Outcome.success 1 [])
      ["a", "b"] ["a"] [] "a").2.2 (by decide)⟩

end PdfScanner
